import Mathlib

/-!
# Verification of `dummy_server.py`

A shallow embedding of the single-file TCP echo/broadcast server
`src/dummy_server.py`, together with proofs of the specified properties.

The program has two parts:

* `read(socket)` (source lines 7-38): drains a non-blocking socket in
  chunks of `RECV_MAX = 4000` bytes, classifying the outcome as
  end-of-stream or not, and closing the socket on end-of-stream.
* `main()` (source lines 40-82): an event loop over a selector.  Each
  cycle processes the readiness events (accept on the listening socket,
  read-and-echo on client sockets, eviction on end-of-stream) and then
  broadcasts a fixed payload to every connection in the `clients` list.

Bytes are modelled as `Nat`, socket handles as `Nat` identifiers, and the
outcomes of the successive `recv` calls on a socket as a finite script of
`RecvEvent`s.  Exception handling in `read` is modelled by the Python
rule: the first `except` clause whose class the raised exception is an
instance of handles it, in source order.

The event loop is modelled at two levels.  `handleEvent`, `processEvents`,
`loopIter` and `run` give the intended, crash-free semantics, in which the
echo write of line 72 succeeds.  `handleEventF`, `processEventsF`,
`loopIterF` and `runF` give the faithful semantics: the statement
`s.write(data)` at line 72 in fact raises an uncaught `AttributeError`
(a `socket.socket` has no `write` method), and `sel.unregister` raises on
a handle that is no longer registered; these crash outcomes are explicit
`StepResult.crash` results carrying the actions performed before the
exception.  The two agree on every non-crashing path (`handleEventF_ok`,
`processEventsF_ok`).
-/

namespace DummyServer

/-- The per-call read chunk size `RECV_MAX = 4000` (source line 5). -/
def RECV_MAX : Nat := 4000

/-- A byte string, one `Nat` per byte. -/
abbrev Bytes := List Nat

/-- The exceptions that a `recv` call on a non-blocking socket can raise
in this program, as concrete Python exception values. `otherOSError` is
any `OSError` that is neither a `BlockingIOError` nor a
`ConnectionResetError`. -/
inductive PyExc
  | blockingIOError
  | connectionResetError
  | otherOSError
  deriving DecidableEq, Repr

/-- The exception classes named by the `except` clauses of `read`
(source lines 24, 27, 30). -/
inductive ExcClass
  | blockingIOErrorC
  | oSErrorC
  | connectionResetErrorC
  deriving DecidableEq, Repr

/-- Python's `isinstance` on the classes above: `BlockingIOError` and
`ConnectionResetError` are both subclasses of `OSError`. -/
def isInstance : PyExc → ExcClass → Bool
  | .blockingIOError, .blockingIOErrorC => true
  | .blockingIOError, .oSErrorC => true
  | .blockingIOError, .connectionResetErrorC => false
  | .connectionResetError, .blockingIOErrorC => false
  | .connectionResetError, .oSErrorC => true
  | .connectionResetError, .connectionResetErrorC => true
  | .otherOSError, .blockingIOErrorC => false
  | .otherOSError, .oSErrorC => true
  | .otherOSError, .connectionResetErrorC => false

/-- The `except` clauses of `read` in source order:
`except BlockingIOError` (line 24), `except OSError` (line 27),
`except ConnectionResetError` (line 30). -/
def handlerOrder : List ExcClass :=
  [.blockingIOErrorC, .oSErrorC, .connectionResetErrorC]

/-- Python exception dispatch: the first clause, in source order, whose
class the exception is an instance of. -/
def matchHandler (e : PyExc) : Option ExcClass :=
  handlerOrder.find? (isInstance e)

/-- The outcome of one `recv` call: either it returns a byte string
(`bytes`, possibly empty, of length at most `RECV_MAX`), or it raises an
exception. -/
inductive RecvEvent
  | bytes (b : Bytes)
  | exc (e : PyExc)
  deriving DecidableEq, Repr

/-- The diagnostic messages `read` can print (source lines 18, 25, 28, 31). -/
inductive Diag
  | eofMsg        -- "EOF condition reached"
  | blockMsg      -- "Got a BlockingIOError in read() call."
  | osMsg         -- "Got an OSError in read() call."
  | resetMsg      -- "Got a ConnectionResetError in read() call."
  deriving DecidableEq, Repr

/-- What the matched `except` clause of `read` does (source lines 24-32):
the `BlockingIOError` clause leaves `has_eof` false, the `OSError` and
`ConnectionResetError` clauses set it true; each prints its own message.
Returns `(has_eof, diagnostics)`.  The `none` case (uncaught exception)
cannot arise for the exceptions modelled, all instances of `OSError`. -/
def handleExc (e : PyExc) : Bool × List Diag :=
  match matchHandler e with
  | some .blockingIOErrorC => (false, [.blockMsg])
  | some .oSErrorC => (true, [.osMsg])
  | some .connectionResetErrorC => (true, [.resetMsg])
  | none => (false, [])

/-- The `while True` loop of `read` (source lines 14-32), over the script
of `recv` outcomes, carrying the accumulator `db`.  Returns
`(has_eof, db, diagnostics)`.  A well-formed script ends the loop before
it is exhausted; the `[]` case is unreachable then. -/
def readAux : List RecvEvent → Bytes → Bool × Bytes × List Diag
  | [], db => (false, db, [])
  | .bytes b :: rest, db =>
      let db2 := db ++ b
      if b.length = 0 then (true, db2, [.eofMsg])
      else if b.length < RECV_MAX then (false, db2, [])
      else readAux rest db2
  | .exc e :: _, db =>
      let r := handleExc e
      (r.1, db, r.2)

/-- The result of `read`: `(has_eof, db)` plus, for the model, the
diagnostics printed and whether `read` closed the socket. -/
structure ReadResult where
  eof : Bool
  buf : Bytes
  diags : List Diag
  closedSock : Bool
  deriving DecidableEq, Repr

/-- The operation `read(socket)` (source lines 7-38): run the recv loop from an empty
accumulator, then close the socket iff `has_eof` (lines 34-35), and
return `(has_eof, db)`. -/
def read (script : List RecvEvent) : ReadResult :=
  let r := readAux script []
  { eof := r.1, buf := r.2.1, diags := r.2.2, closedSock := r.1 }

/-! ## The event loop -/

/-- A socket handle, identified by a number.  `SERVER` is the listening
socket; accepted connections get fresh identifiers `1, 2, ...`. -/
abbrev Conn := Nat

/-- The listening socket's handle. -/
def SERVER : Conn := 0

/-- The mutable state of `main` (source lines 41-57): the selector's
registration table (`registered`), the broadcast list (`clients`,
source line 54), the set of handles closed so far, and the next fresh
handle an `accept` will return. -/
structure ServerState where
  registered : List Conn
  clients : List Conn
  closed : List Conn
  nextConn : Conn
  deriving DecidableEq, Repr

/-- The state after the startup sequence (lines 41-54): only the
listening socket is registered, no clients, nothing closed. -/
def initState : ServerState :=
  { registered := [SERVER], clients := [], closed := [], nextConn := 1 }

/-- A readiness event returned by one `sel.select` call: either the
listening socket is acceptable, or a client connection `c` is readable
and its pending `recv` outcomes are `script`. -/
inductive Event
  | acceptable
  | readable (c : Conn) (script : List RecvEvent)
  deriving DecidableEq, Repr

/-- The observable I/O actions of one loop iteration:
`accepted c` for `s.accept()` (line 63), `write c b` for the echo
`s.write(data)` (line 72), `close c` for the `socket.close()` inside
`read` (line 35), `send c p` for the broadcast `client.send(...)`
(line 80). -/
inductive Effect
  | accepted (c : Conn)
  | write (c : Conn) (b : Bytes)
  | close (c : Conn)
  | send (c : Conn) (p : String)
  deriving DecidableEq, Repr

/-- Whether an effect is a broadcast send (`client.send`, line 80), as
opposed to an event-handling action. -/
def Effect.isSend : Effect → Bool
  | .send _ _ => true
  | _ => false

/-- Eviction of a finished connection (source lines 75-77):
`sel.unregister(s)` removes the selector registration, and
`while s in clients: clients.remove(s)` removes every occurrence from
the broadcast list.  This is the successful eviction path; the faithful
fallible version, whose unregister step raises when the handle is no
longer registered, is `evictSeq` below, and `evictSeq st c = .ok
(evict st c)` whenever `c` is registered (`evictSeq_ok`). -/
def evict (st : ServerState) (c : Conn) : ServerState :=
  { st with
    registered := st.registered.filter (fun d => d ≠ c),
    clients := st.clients.filter (fun d => d ≠ c) }

/-- Handling of one readiness event (source lines 59-77), returning the
new state and the I/O actions performed.  An `acceptable` event accepts
one fresh connection, registers it and appends it to `clients`
(lines 62-67).  A `readable` event runs `read`; if not end-of-stream the
data read is written back to the same connection (lines 71-73), else the
socket has been closed by `read` and the connection is evicted
(lines 74-77).  This is the intended, crash-free semantics: it models
line 72 `s.write(data)` as a successful write, though in reality that
statement raises `AttributeError` (see `handleEventF` below, the
faithful semantics, which coincides with this one on every
non-crashing path). -/
def handleEvent (st : ServerState) : Event → ServerState × List Effect
  | .acceptable =>
      let c := st.nextConn
      ({ registered := st.registered ++ [c],
         clients := st.clients ++ [c],
         closed := st.closed,
         nextConn := c + 1 },
       [.accepted c])
  | .readable c script =>
      let r := read script
      if r.eof then
        ({ evict st c with closed := st.closed ++ [c] }, [.close c])
      else
        (st, [.write c r.buf])

/-- The `for key, mask in events` loop (source lines 59-77): handle the
events in order, threading the state and concatenating the actions. -/
def processEvents (st : ServerState) : List Event → ServerState × List Effect
  | [] => (st, [])
  | e :: rest =>
      let r1 := handleEvent st e
      let r2 := processEvents r1.1 rest
      (r2.1, r1.2 ++ r2.2)

/-- An apostrophe, as it occurs in the broadcast payload text. -/
def APOS : Char := Char.ofNat 39

/-- The fixed broadcast payload (source line 80), byte for byte. -/
def PAYLOAD : String :=
  "Lorem ipsum quod ecit sit dolor remen.  Amputate mixed bias is confusing and inadequate, but spindrift accumulation has been allowing the issue to go unnoticed for the past several thousand head of sheep in a herd where x is not negative.  If x is negative, go to page 99999999999.\nThis is line two of a two-line message.  Welcome to the future!\nSorry, we were just kidding.  It"
  ++ String.mk [APOS]
  ++ "s actually three lines...\n"

/-- The per-cycle broadcast (source lines 79-80): one `send` of the fixed
payload to each connection currently in `clients`, in list order. -/
def broadcastTrace (st : ServerState) : List Effect :=
  st.clients.map (fun c => .send c PAYLOAD)

/-- One iteration of the `while True` loop (source lines 57-80): process
all readiness events of this cycle, then broadcast to every remaining
client.  The broadcast does not change the state. -/
def loopIter (st : ServerState) (events : List Event) :
    ServerState × List Effect :=
  let r := processEvents st events
  (r.1, r.2 ++ broadcastTrace r.1)

/-- Several iterations of the main loop, one event batch per cycle. -/
def run (st : ServerState) : List (List Event) → ServerState × List Effect
  | [] => (st, [])
  | ev :: rest =>
      let r1 := loopIter st ev
      let r2 := run r1.1 rest
      (r2.1, r1.2 ++ r2.2)

/-- One readiness event is valid for a state when, if it is a readable
event, it targets a connection registered with the selector (the
selector only reports registered handles) other than the listening
socket. -/
def eventValid (st : ServerState) : Event → Prop
  | .acceptable => True
  | .readable c _ => c ∈ st.registered ∧ c ≠ SERVER

instance (st : ServerState) : DecidablePred (eventValid st) := fun e =>
  match e with
  | .acceptable => .isTrue trivial
  | .readable c _ => inferInstanceAs (Decidable (c ∈ st.registered ∧ c ≠ SERVER))

/-- A batch of readiness events is valid for a state when each of its
events is. -/
def ValidEvents (st : ServerState) (events : List Event) : Prop :=
  ∀ e ∈ events, eventValid st e

instance (st : ServerState) (events : List Event) :
    Decidable (ValidEvents st events) :=
  List.decidableBAll _ events

/-- Validity of a whole run: each cycle's event batch is valid for the
state at the start of that cycle. -/
def ValidRun : ServerState → List (List Event) → Prop
  | _, [] => True
  | st, ev :: rest => ValidEvents st ev ∧ ValidRun (loopIter st ev).1 rest

instance : ∀ (st : ServerState) (batches : List (List Event)),
    Decidable (ValidRun st batches)
  | _, [] => .isTrue trivial
  | st, ev :: rest =>
      have : Decidable (ValidRun (loopIter st ev).1 rest) :=
        instDecidableValidRun _ _
      inferInstanceAs (Decidable (_ ∧ _))

/-- The bookkeeping invariant of the event loop: every connection in the
broadcast list is registered and not closed, and every handle ever seen
is below the fresh-handle counter. -/
def Inv (st : ServerState) : Prop :=
  (∀ c ∈ st.clients, c ∈ st.registered ∧ c ∉ st.closed) ∧
  (∀ c ∈ st.registered, c < st.nextConn) ∧
  (∀ c ∈ st.clients, c < st.nextConn) ∧
  (∀ c ∈ st.closed, c < st.nextConn)

instance (st : ServerState) : Decidable (Inv st) := by
  unfold Inv
  infer_instance

/-- A connection is gone when it is neither registered nor in the
broadcast list, and is stale with respect to the fresh-handle counter
(so no future `accept` can return it again). -/
def Gone (st : ServerState) (c : Conn) : Prop :=
  c ∉ st.registered ∧ c ∉ st.clients ∧ c < st.nextConn

instance (st : ServerState) (c : Conn) : Decidable (Gone st c) := by
  unfold Gone
  infer_instance

/-! ## The faithful, fallible semantics

The transition functions above model the two statements that can in fact
raise an uncaught exception as if they succeeded: line 72 evaluates
`s.write(data)`, but `socket.socket` has no `write` attribute (only
`send`/`sendall`; the intended call is visible in `client.send` at line
80), so the attribute lookup raises `AttributeError` and kills the
process; and `sel.unregister(s)` raises when `s` is no longer registered.
The definitions below model event handling with these error paths
included; `handleEventF` coincides with `handleEvent` on every
non-crashing path (`handleEventF_ok`). -/

/-- The uncaught Python exceptions that can kill the process in the
event loop: the `AttributeError` from the attribute lookup `s.write` at
line 72 (a `socket.socket` has no `write` method), and the `ValueError`
that `sel.unregister` raises for a closed handle that is no longer
registered (`fileno()` is `-1` and the selector's identity-fallback
search fails). -/
inductive PyError
  | attributeError
  | valueError
  deriving DecidableEq, Repr

/-- The outcome of a fallible piece of the loop: either a new state with
the I/O actions performed, or death of the process by an uncaught
exception, with the actions performed before it was raised. -/
inductive StepResult
  | ok (st : ServerState) (tr : List Effect)
  | crash (err : PyError) (tr : List Effect)
  deriving DecidableEq, Repr

/-- The I/O actions performed, whether the step survived or crashed. -/
def StepResult.trace : StepResult → List Effect
  | .ok _ tr => tr
  | .crash _ tr => tr

/-- Faithful `sel.unregister(s)` (source line 75): succeeds when the
handle is registered — even if already closed, via the selector's
identity-fallback lookup — and raises when it is not. -/
def unregister (st : ServerState) (c : Conn) : Except PyError ServerState :=
  if c ∈ st.registered then
    .ok { st with registered := st.registered.filter (fun d => d ≠ c) }
  else
    .error .valueError

/-- Faithful eviction sequence (source lines 75-77): `sel.unregister(s)`
followed by the `while s in clients: clients.remove(s)` loop; the
removal loop runs only if the unregister did not raise. -/
def evictSeq (st : ServerState) (c : Conn) : Except PyError ServerState :=
  match unregister st c with
  | .ok st1 => .ok { st1 with clients := st1.clients.filter (fun d => d ≠ c) }
  | .error err => .error err

/-- Faithful handling of one readiness event (source lines 59-77).  An
accept succeeds as in `handleEvent`.  On a readable event, `read` runs
first (closing the socket on end-of-stream); if the result is not
end-of-stream, line 72 evaluates `s.write` and the process dies with
`AttributeError` before any write happens; if it is end-of-stream, the
eviction sequence runs, whose unregister step is fallible. -/
def handleEventF (st : ServerState) : Event → StepResult
  | .acceptable =>
      let c := st.nextConn
      .ok { registered := st.registered ++ [c],
            clients := st.clients ++ [c],
            closed := st.closed,
            nextConn := c + 1 }
        [.accepted c]
  | .readable c script =>
      let r := read script
      if r.eof then
        match evictSeq { st with closed := st.closed ++ [c] } c with
        | .ok st1 => .ok st1 [.close c]
        | .error err => .crash err [.close c]
      else
        .crash .attributeError []

/-- Faithful `for key, mask in events` loop: events are handled in
order until one of them kills the process. -/
def processEventsF (st : ServerState) : List Event → StepResult
  | [] => .ok st []
  | e :: rest =>
      match handleEventF st e with
      | .ok st1 t1 =>
          match processEventsF st1 rest with
          | .ok st2 t2 => .ok st2 (t1 ++ t2)
          | .crash err t2 => .crash err (t1 ++ t2)
      | .crash err t1 => .crash err t1

/-- Faithful loop iteration (source lines 57-80): the broadcast at lines
79-80 runs only if event processing did not kill the process. -/
def loopIterF (st : ServerState) (events : List Event) : StepResult :=
  match processEventsF st events with
  | .ok st1 t1 => .ok st1 (t1 ++ broadcastTrace st1)
  | .crash err t1 => .crash err t1

/-- Several faithful iterations of the main loop; a crash in any cycle
ends the run. -/
def runF (st : ServerState) : List (List Event) → StepResult
  | [] => .ok st []
  | ev :: rest =>
      match loopIterF st ev with
      | .ok st1 t1 =>
          match runF st1 rest with
          | .ok st2 t2 => .ok st2 (t1 ++ t2)
          | .crash err t2 => .crash err (t1 ++ t2)
      | .crash err t1 => .crash err t1

/-- A sample state with connection 1 registered and duplicated in the
broadcast list, for exercising eviction. -/
def sampleEvictState : ServerState :=
  { registered := [0, 1], clients := [1, 1], closed := [], nextConn := 2 }

/-- A sample state in which connection 1 is gone: closed, deregistered,
removed from the broadcast list, and stale. -/
def sampleGoneState : ServerState :=
  { registered := [0], clients := [], closed := [1], nextConn := 2 }

/-! ## Helper lemmas -/

/-- Running the recv loop over a prefix of full-size chunks just
accumulates their bytes, in order, and continues with the rest of the
script. -/
theorem readAux_full_chunks (full : List Bytes)
    (h : ∀ b ∈ full, b.length = RECV_MAX) (rest : List RecvEvent)
    (db : Bytes) :
    readAux (full.map RecvEvent.bytes ++ rest) db
      = readAux rest (db ++ full.flatten) := by
  induction full generalizing db with
  | nil => simp
  | cons b full ih =>
      have hb : b.length = RECV_MAX := h b (by simp)
      have hrest : ∀ x ∈ full, x.length = RECV_MAX := fun x hx => h x (by simp [hx])
      simp only [List.map_cons, List.cons_append, readAux, hb, RECV_MAX]
      norm_num
      rw [ih hrest]
      simp [List.append_assoc]

/-- The fresh-handle counter never decreases across one event. -/
theorem nextConn_mono (st : ServerState) (e : Event) :
    st.nextConn ≤ (handleEvent st e).1.nextConn := by
  cases e with
  | acceptable => simp [handleEvent]
  | readable c script =>
      simp only [handleEvent]
      split <;> simp [evict]

/-- The fresh-handle counter never decreases across a batch of events. -/
theorem nextConn_mono_processEvents (events : List Event) (st : ServerState) :
    st.nextConn ≤ (processEvents st events).1.nextConn := by
  induction events generalizing st with
  | nil => simp [processEvents]
  | cons e rest ih =>
      simp only [processEvents]
      exact le_trans (nextConn_mono st e) (ih _)

/-- A readable event's target is below the bound `n` (the fresh-handle
counter of some earlier state). -/
def EventOK (n : Nat) : Event → Prop
  | .acceptable => True
  | .readable c _ => c < n

theorem eventOK_mono {n m : Nat} (h : n ≤ m) {e : Event}
    (he : EventOK n e) : EventOK m e := by
  cases e with
  | acceptable => trivial
  | readable c script => exact lt_of_lt_of_le he h

/-- Handling one event whose target is below the counter preserves the
bookkeeping invariant. -/
theorem handleEvent_inv {st : ServerState} {e : Event} (hi : Inv st)
    (he : EventOK st.nextConn e) : Inv (handleEvent st e).1 := by
  obtain ⟨h1, h2, h3, h4⟩ := hi
  cases e with
  | acceptable =>
      refine ⟨?_, ?_, ?_, ?_⟩ <;> intro c hc <;>
        simp only [handleEvent, List.mem_append, List.mem_singleton] at hc ⊢
      · rcases hc with hc | hc
        · exact ⟨Or.inl (h1 c hc).1, fun hcl => (h1 c hc).2 hcl⟩
        · exact ⟨Or.inr hc, fun hcl => absurd (h4 c hcl) (by simp [hc])⟩
      · rcases hc with hc | hc
        · exact lt_trans (h2 c hc) (Nat.lt_succ_self _)
        · simp [hc]
      · rcases hc with hc | hc
        · exact lt_trans (h3 c hc) (Nat.lt_succ_self _)
        · simp [hc]
      · exact lt_trans (h4 c hc) (Nat.lt_succ_self _)
  | readable d script =>
      simp only [handleEvent]
      split
      · refine ⟨?_, ?_, ?_, ?_⟩ <;> intro c hc <;>
          simp only [evict, List.mem_filter, List.mem_append,
            List.mem_singleton, decide_eq_true_eq] at hc ⊢
        · obtain ⟨hc, hcd⟩ := hc
          refine ⟨⟨(h1 c hc).1, hcd⟩, ?_⟩
          rintro (hcl | rfl)
          · exact (h1 c hc).2 hcl
          · exact hcd rfl
        · exact h2 c hc.1
        · exact h3 c hc.1
        · rcases hc with hc | rfl
          · exact h4 c hc
          · exact he
      · exact ⟨h1, h2, h3, h4⟩

/-- Processing a batch of events with in-range targets preserves the
bookkeeping invariant. -/
theorem processEvents_inv {events : List Event} {st : ServerState}
    (hi : Inv st) (he : ∀ e ∈ events, EventOK st.nextConn e) :
    Inv (processEvents st events).1 := by
  induction events generalizing st with
  | nil => exact hi
  | cons e rest ih =>
      simp only [processEvents]
      refine ih (handleEvent_inv hi (he e (by simp))) ?_
      intro x hx
      exact eventOK_mono (nextConn_mono st e) (he x (by simp [hx]))

/-- Under the invariant, a valid event batch has in-range targets. -/
theorem validEvents_eventOK {st : ServerState} {events : List Event}
    (hi : Inv st) (hv : ValidEvents st events) :
    ∀ e ∈ events, EventOK st.nextConn e := by
  intro e he
  cases e with
  | acceptable => trivial
  | readable c script => exact hi.2.1 c (hv _ he).1

/-- One full loop iteration with a valid event batch preserves the
bookkeeping invariant. -/
theorem loopIter_inv {st : ServerState} {events : List Event}
    (hi : Inv st) (hv : ValidEvents st events) :
    Inv (loopIter st events).1 :=
  processEvents_inv hi (validEvents_eventOK hi hv)

/-- A valid run preserves the bookkeeping invariant. -/
theorem run_inv {batches : List (List Event)} {st : ServerState}
    (hi : Inv st) (hv : ValidRun st batches) : Inv (run st batches).1 := by
  induction batches generalizing st with
  | nil => exact hi
  | cons ev rest ih =>
      simp only [run]
      exact ih (loopIter_inv hi hv.1) hv.2

/-- The initial state satisfies the bookkeeping invariant. -/
theorem initState_inv : Inv initState := by decide

/-- A gone connection stays gone across any single event: accepts only
produce fresh handles and evictions only remove. -/
theorem gone_handleEvent {st : ServerState} {c : Conn} (hg : Gone st c)
    (e : Event) : Gone (handleEvent st e).1 c := by
  obtain ⟨hr, hc, hn⟩ := hg
  cases e with
  | acceptable =>
      refine ⟨?_, ?_, ?_⟩ <;>
        simp only [handleEvent, List.mem_append, List.mem_singleton]
      · rintro (h | rfl)
        · exact hr h
        · exact absurd hn (lt_irrefl _)
      · rintro (h | rfl)
        · exact hc h
        · exact absurd hn (lt_irrefl _)
      · exact lt_trans hn (Nat.lt_succ_self _)
  | readable d script =>
      simp only [handleEvent]
      split
      · refine ⟨?_, ?_, hn⟩ <;>
          simp only [evict, List.mem_filter, decide_eq_true_eq, not_and]
        · exact fun h => absurd h hr
        · exact fun h => absurd h hc
      · exact ⟨hr, hc, hn⟩

/-- A gone connection stays gone across a batch of events. -/
theorem gone_processEvents {st : ServerState} {c : Conn} (hg : Gone st c)
    (events : List Event) : Gone (processEvents st events).1 c := by
  induction events generalizing st with
  | nil => exact hg
  | cons e rest ih =>
      simp only [processEvents]
      exact ih (gone_handleEvent hg e)

/-- The actions of event handling are never broadcast sends. -/
theorem handleEvent_no_send (st : ServerState) (e : Event) :
    ∀ x ∈ (handleEvent st e).2, x.isSend = false := by
  cases e with
  | acceptable => simp [handleEvent, Effect.isSend]
  | readable d script =>
      simp only [handleEvent]
      split <;> simp [Effect.isSend]

/-- The actions of a whole event batch are never broadcast sends. -/
theorem processEvents_no_send (st : ServerState) (events : List Event) :
    ∀ x ∈ (processEvents st events).2, x.isSend = false := by
  induction events generalizing st with
  | nil => simp [processEvents]
  | cons e rest ih =>
      simp only [processEvents, List.mem_append]
      rintro x (hx | hx)
      · exact handleEvent_no_send st e x hx
      · exact ih _ x hx

/-- The broadcast never sends to a connection outside `clients`. -/
theorem broadcast_targets {st : ServerState} {c : Conn} {p : String}
    (h : Effect.send c p ∈ broadcastTrace st) : c ∈ st.clients := by
  simp only [broadcastTrace, List.mem_map] at h
  obtain ⟨a, ha, hac⟩ := h
  cases hac
  exact ha

/-- Evicting a registered connection succeeds, and yields exactly the
state `evict` describes. -/
theorem evictSeq_ok {st : ServerState} {c : Conn} (h : c ∈ st.registered) :
    evictSeq st c = Except.ok (evict st c) := by
  simp [evictSeq, unregister, h, evict]

/-- Evicting a connection that is no longer registered raises at the
unregister step. -/
theorem evictSeq_not_registered {st : ServerState} {c : Conn}
    (h : c ∉ st.registered) :
    evictSeq st c = Except.error PyError.valueError := by
  simp [evictSeq, unregister, h]

/-- On every non-crashing path, the faithful event handling agrees with
the intended one: same state, same actions. -/
theorem handleEventF_ok {st : ServerState} {e : Event} {st1 : ServerState}
    {t1 : List Effect} (h : handleEventF st e = .ok st1 t1) :
    handleEvent st e = (st1, t1) := by
  cases e with
  | acceptable =>
      simp only [handleEventF] at h
      cases h
      rfl
  | readable c script =>
      by_cases hreg : c ∈ st.registered
      · have hev : evictSeq { st with closed := st.closed ++ [c] } c
            = Except.ok { evict st c with closed := st.closed ++ [c] } := by
          rw [evictSeq_ok (by simpa using hreg)]
          rfl
        simp only [handleEventF, hev] at h
        split at h
        · rename_i heof
          cases h
          simp [handleEvent, heof]
        · cases h
      · have hev : evictSeq { st with closed := st.closed ++ [c] } c
            = Except.error PyError.valueError :=
          evictSeq_not_registered (by simpa using hreg)
        simp only [handleEventF, hev] at h
        split at h
        · cases h
        · cases h

/-- On every non-crashing path, the faithful event batch processing
agrees with the intended one. -/
theorem processEventsF_ok {events : List Event} {st st1 : ServerState}
    {t1 : List Effect} (h : processEventsF st events = .ok st1 t1) :
    processEvents st events = (st1, t1) := by
  induction events generalizing st t1 with
  | nil =>
      simp only [processEventsF] at h
      cases h
      rfl
  | cons e rest ih =>
      simp only [processEventsF] at h
      cases he : handleEventF st e with
      | crash err t => simp only [he] at h; cases h
      | ok stx tx =>
          simp only [he] at h
          cases hr : processEventsF stx rest with
          | crash err t => simp only [hr] at h; cases h
          | ok sty ty =>
              simp only [hr] at h
              cases h
              simp [processEvents, handleEventF_ok he, ih hr]

/-- The actions of faithful event handling, crashing or not, are never
broadcast sends. -/
theorem handleEventF_no_send (st : ServerState) (e : Event) :
    ∀ x ∈ (handleEventF st e).trace, x.isSend = false := by
  cases e with
  | acceptable => simp [handleEventF, StepResult.trace, Effect.isSend]
  | readable c script =>
      simp only [handleEventF]
      split
      · split <;> simp [StepResult.trace, Effect.isSend]
      · simp [StepResult.trace]

/-- The actions of a faithful event batch, crashing or not, are never
broadcast sends. -/
theorem processEventsF_no_send (st : ServerState) (events : List Event) :
    ∀ x ∈ (processEventsF st events).trace, x.isSend = false := by
  induction events generalizing st with
  | nil => simp [processEventsF, StepResult.trace]
  | cons e rest ih =>
      intro x hx
      simp only [processEventsF] at hx
      cases he : handleEventF st e with
      | crash err t =>
          simp only [he] at hx
          refine handleEventF_no_send st e x ?_
          rw [he]
          exact hx
      | ok stx tx =>
          simp only [he] at hx
          cases hr : processEventsF stx rest with
          | ok sty ty =>
              simp only [hr] at hx
              simp only [StepResult.trace, List.mem_append] at hx
              rcases hx with hx | hx
              · exact handleEventF_no_send st e x (by rw [he]; exact hx)
              · exact ih stx x (by rw [hr]; exact hx)
          | crash err ty =>
              simp only [hr] at hx
              simp only [StepResult.trace, List.mem_append] at hx
              rcases hx with hx | hx
              · exact handleEventF_no_send st e x (by rw [he]; exact hx)
              · exact ih stx x (by rw [hr]; exact hx)

/-- A gone connection receives no broadcast send over any faithful run,
whether the run survived or was ended by a crash. -/
theorem gone_runF_no_send {st : ServerState} {c : Conn} (hg : Gone st c)
    (batches : List (List Event)) (p : String) :
    Effect.send c p ∉ (runF st batches).trace := by
  induction batches generalizing st with
  | nil => simp [runF, StepResult.trace]
  | cons ev rest ih =>
      intro hx
      simp only [runF, loopIterF] at hx
      cases hpe : processEventsF st ev with
      | crash err t =>
          simp only [hpe] at hx
          have hns := processEventsF_no_send st ev
            (Effect.send c p) (by rw [hpe]; exact hx)
          simp [Effect.isSend] at hns
      | ok stx tx =>
          simp only [hpe] at hx
          have hgx : Gone stx c := by
            have h2 := gone_processEvents hg ev
            rw [processEventsF_ok hpe] at h2
            exact h2
          cases hrr : runF stx rest with
          | ok sty ty =>
              simp only [hrr] at hx
              simp only [StepResult.trace, List.mem_append] at hx
              rcases hx with (hx | hx) | hx
              · have hns := processEventsF_no_send st ev
                  (Effect.send c p) (by rw [hpe]; exact hx)
                simp [Effect.isSend] at hns
              · exact hgx.2.1 (broadcast_targets hx)
              · exact ih hgx (by rw [hrr]; exact hx)
          | crash err ty =>
              simp only [hrr] at hx
              simp only [StepResult.trace, List.mem_append] at hx
              rcases hx with (hx | hx) | hx
              · have hns := processEventsF_no_send st ev
                  (Effect.send c p) (by rw [hpe]; exact hx)
                simp [Effect.isSend] at hns
              · exact hgx.2.1 (broadcast_targets hx)
              · exact ih hgx (by rw [hrr]; exact hx)

/-- Every connection in the broadcast list of the state reached at a
broadcast point is registered and not closed. -/
def ClientsOK (st : ServerState) : Prop :=
  ∀ c ∈ st.clients, c ∈ st.registered ∧ c ∉ st.closed

instance (st : ServerState) : Decidable (ClientsOK st) :=
  List.decidableBAll _ st.clients

/-! ## The claims -/

/-- C1: the claimed echo never happens.  On a readiness event whose read
returns end-of-stream false with a non-empty buffer — here a client's
one contiguous write of the two bytes "Hi", well under the 4000-byte
chunk — the event loop reaches line 72 and evaluates `s.write(data)`;
`socket.socket` has no `write` attribute, so the lookup raises an
uncaught `AttributeError` and the process dies having performed no write
at all to the connection, rather than echoing `B` back. -/
theorem echo_attribute_error (st : ServerState) (c : Conn) :
    handleEventF st (.readable c [RecvEvent.bytes [72, 105]])
      = StepResult.crash PyError.attributeError [] := rfl

/-- C2: the read operation, run over any prefix of full `RECV_MAX`-sized
chunks followed by a terminating recv outcome, (a) stops with
end-of-stream true on a zero-byte recv, (b) stops with end-of-stream
false on a recv shorter than the chunk size, (c) stops with end-of-stream
false on a would-block, keeping everything accumulated so far; in every
case the returned buffer is the in-order concatenation of the bytes the
successive recv calls returned. -/
theorem read_case_analysis (full : List Bytes)
    (hfull : ∀ b ∈ full, b.length = RECV_MAX) (rest : List RecvEvent)
    (b : Bytes) (hb0 : b.length ≠ 0) (hbl : b.length < RECV_MAX) :
    read (full.map RecvEvent.bytes ++ RecvEvent.bytes [] :: rest)
      = { eof := true, buf := full.flatten, diags := [Diag.eofMsg],
          closedSock := true } ∧
    read (full.map RecvEvent.bytes ++ RecvEvent.bytes b :: rest)
      = { eof := false, buf := full.flatten ++ b, diags := [],
          closedSock := false } ∧
    read (full.map RecvEvent.bytes ++ RecvEvent.exc .blockingIOError :: rest)
      = { eof := false, buf := full.flatten, diags := [Diag.blockMsg],
          closedSock := false } := by
  refine ⟨?_, ?_, ?_⟩ <;>
    simp [read, readAux_full_chunks full hfull, readAux, hb0, hbl,
      handleExc, matchHandler, handlerOrder, isInstance]

theorem read_case_analysis_witness :
    (∀ x ∈ [List.replicate RECV_MAX 7], x.length = RECV_MAX) ∧
    ([9] : Bytes).length ≠ 0 ∧ ([9] : Bytes).length < RECV_MAX ∧
    read ([List.replicate RECV_MAX 7].map RecvEvent.bytes
        ++ RecvEvent.bytes [] :: [])
      = { eof := true, buf := [List.replicate RECV_MAX 7].flatten,
          diags := [Diag.eofMsg], closedSock := true } ∧
    read ([List.replicate RECV_MAX 7].map RecvEvent.bytes
        ++ RecvEvent.bytes [9] :: [])
      = { eof := false, buf := [List.replicate RECV_MAX 7].flatten ++ [9],
          diags := [], closedSock := false } ∧
    read ([List.replicate RECV_MAX 7].map RecvEvent.bytes
        ++ RecvEvent.exc .blockingIOError :: [])
      = { eof := false, buf := [List.replicate RECV_MAX 7].flatten,
          diags := [Diag.blockMsg], closedSock := false } := by
  have h1 : ∀ x ∈ [List.replicate RECV_MAX 7], x.length = RECV_MAX := by
    simp
  have h := read_case_analysis [List.replicate RECV_MAX 7] h1 [] [9]
    (by decide) (by decide)
  exact ⟨h1, by decide, by decide, h.1, h.2.1, h.2.2⟩

set_option maxRecDepth 8000 in
/-- C3: the per-cycle broadcast does not reach every cycle's clients.
A poll cycle whose events include a non-end-of-stream readable event —
here an accept followed by a client's two-byte read — dies at line 72
with `AttributeError` before the broadcast loop of lines 79-80 runs: the
cycle's trace holds only the accept, and no connection is sent the
payload that cycle.  (The payload literal itself does have the claimed
shape: exactly three newline-terminated lines, the first beginning with
"Lorem ipsum quod ecit sit dolor remen.".) -/
theorem broadcast_killed_by_echo_crash (st : ServerState) (c : Conn) :
    loopIterF st [Event.acceptable, Event.readable c [RecvEvent.bytes [72, 105]]]
      = StepResult.crash PyError.attributeError [Effect.accepted st.nextConn] ∧
    (PAYLOAD.data.filter (fun ch => ch = Char.ofNat 10)).length = 3 ∧
    PAYLOAD.data.getLast? = some (Char.ofNat 10) ∧
    ("Lorem ipsum quod ecit sit dolor remen." : String).data.isPrefixOf
        PAYLOAD.data
      = true :=
  ⟨rfl, by decide, by decide, by decide⟩

/-- C4 counterexample: a second eviction attempt is not a no-op.  From a
state with connection 1 registered, the first eviction succeeds; running
the eviction sequence again on the resulting state raises `ValueError`
at the `sel.unregister` step (the closed handle is no longer registered
and its `fileno()` is `-1`), rather than silently doing nothing. -/
theorem second_eviction_not_noop :
    evictSeq sampleEvictState 1
      = Except.ok
          { registered := [0], clients := [], closed := [], nextConn := 2 } ∧
    evictSeq { registered := [0], clients := [], closed := [], nextConn := 2 } 1
      = Except.error PyError.valueError :=
  ⟨rfl, rfl⟩

/-- C4 (amended): evicting a registered connection succeeds and removes
it from both the broadcast list and the selector registrations; the
clients-removal pass (`while s in clients`) is idempotent, and an
evicted (gone, stale) connection never receives a broadcast send in any
later faithful run of the loop, crashing or not; but a second full
eviction attempt for the same connection is not a no-op — its
unregister step raises `ValueError` on the no-longer-registered
handle. -/
theorem eviction_amended (st' st : ServerState) (c : Conn)
    (batches : List (List Event)) (p : String)
    (hreg : c ∈ st'.registered) (hg : Gone st c) :
    evictSeq st' c = Except.ok (evict st' c) ∧
    (c ∉ (evict st' c).clients ∧ c ∉ (evict st' c).registered) ∧
    (evict st' c).clients.filter (fun d => d ≠ c) = (evict st' c).clients ∧
    evictSeq (evict st' c) c = Except.error PyError.valueError ∧
    Effect.send c p ∉ (runF st batches).trace := by
  refine ⟨evictSeq_ok hreg, ⟨?_, ?_⟩, ?_, ?_, gone_runF_no_send hg batches p⟩
  · simp [evict, List.mem_filter]
  · simp [evict, List.mem_filter]
  · simp [evict, List.filter_filter]
  · refine evictSeq_not_registered ?_
    simp [evict, List.mem_filter]

theorem eviction_amended_witness :
    (1 : Conn) ∈ sampleEvictState.registered ∧
    Gone sampleGoneState 1 ∧
    (evictSeq sampleEvictState 1 = Except.ok (evict sampleEvictState 1) ∧
     (1 ∉ (evict sampleEvictState 1).clients ∧
      1 ∉ (evict sampleEvictState 1).registered) ∧
     (evict sampleEvictState 1).clients.filter (fun d => d ≠ 1)
       = (evict sampleEvictState 1).clients ∧
     evictSeq (evict sampleEvictState 1) 1 = Except.error PyError.valueError ∧
     Effect.send 1 PAYLOAD ∉ (runF sampleGoneState [[Event.acceptable]]).trace) :=
  ⟨by decide, by decide,
    eviction_amended sampleEvictState sampleGoneState 1 [[Event.acceptable]]
      PAYLOAD (by decide) (by decide)⟩

/-- C5: at every broadcast point of every valid run — after the event
batches of any number of cycles and the events of the current cycle —
every connection in the active set is registered with the selector and
not closed; moreover, when a connection ends, one single event-handling
step removes it from both the active set and the registrations. -/
theorem active_set_invariant (batches : List (List Event))
    (events : List Event) (st5 : ServerState) (c5 : Conn)
    (script5 : List RecvEvent) (hr : ValidRun initState batches)
    (he : ValidEvents (run initState batches).1 events)
    (heof : (read script5).eof = true) :
    ClientsOK (processEvents (run initState batches).1 events).1 ∧
    (c5 ∉ (handleEvent st5 (.readable c5 script5)).1.clients ∧
     c5 ∉ (handleEvent st5 (.readable c5 script5)).1.registered) := by
  have hinv : Inv (run initState batches).1 := run_inv initState_inv hr
  have hinv2 : Inv (processEvents (run initState batches).1 events).1 :=
    processEvents_inv hinv (validEvents_eventOK hinv he)
  refine ⟨hinv2.1, ?_, ?_⟩ <;>
    simp [handleEvent, heof, evict, List.mem_filter]

theorem active_set_invariant_witness :
    ValidRun initState [[Event.acceptable], [Event.acceptable]] ∧
    ValidEvents (run initState [[Event.acceptable], [Event.acceptable]]).1
      [Event.readable 1 [RecvEvent.bytes []], Event.acceptable] ∧
    (read [RecvEvent.bytes []]).eof = true ∧
    (ClientsOK (processEvents
        (run initState [[Event.acceptable], [Event.acceptable]]).1
        [Event.readable 1 [RecvEvent.bytes []], Event.acceptable]).1 ∧
     (1 ∉ (handleEvent initState
        (.readable 1 [RecvEvent.bytes []])).1.clients ∧
      1 ∉ (handleEvent initState
        (.readable 1 [RecvEvent.bytes []])).1.registered)) :=
  ⟨by decide, by decide, by decide,
    active_set_invariant [[Event.acceptable], [Event.acceptable]]
      [Event.readable 1 [RecvEvent.bytes []], Event.acceptable]
      initState 1 [RecvEvent.bytes []]
      (by decide) (by decide) (by decide)⟩

/-- C6: whenever the read operation reports end-of-stream, the read
operation itself has closed the connection handle, and the event loop's
handling of that event marks the handle closed, deregisters it from the
selector, and removes every occurrence of it from the active set. -/
theorem eof_cleanup (st : ServerState) (c : Conn)
    (script : List RecvEvent) (heof : (read script).eof = true) :
    (read script).closedSock = true ∧
    c ∈ (handleEvent st (.readable c script)).1.closed ∧
    c ∉ (handleEvent st (.readable c script)).1.registered ∧
    (handleEvent st (.readable c script)).1.clients.count c = 0 := by
  refine ⟨?_, ?_, ?_, ?_⟩
  · rw [show (read script).closedSock = (read script).eof from rfl, heof]
  · simp [handleEvent, heof, evict]
  · simp [handleEvent, heof, evict, List.mem_filter]
  · simp [handleEvent, heof, evict, List.count_eq_zero, List.mem_filter]

theorem eof_cleanup_witness :
    (read [RecvEvent.exc .otherOSError]).eof = true ∧
    ((read [RecvEvent.exc .otherOSError]).closedSock = true ∧
     2 ∈ (handleEvent
        { registered := [0, 1, 2], clients := [2, 1, 2], closed := [],
          nextConn := 3 }
        (.readable 2 [RecvEvent.exc .otherOSError])).1.closed ∧
     2 ∉ (handleEvent
        { registered := [0, 1, 2], clients := [2, 1, 2], closed := [],
          nextConn := 3 }
        (.readable 2 [RecvEvent.exc .otherOSError])).1.registered ∧
     (handleEvent
        { registered := [0, 1, 2], clients := [2, 1, 2], closed := [],
          nextConn := 3 }
        (.readable 2 [RecvEvent.exc .otherOSError])).1.clients.count 2
       = 0) :=
  ⟨by decide,
    eof_cleanup
      { registered := [0, 1, 2], clients := [2, 1, 2], closed := [],
        nextConn := 3 }
      2 [RecvEvent.exc .otherOSError] (by decide)⟩

/-- C7: within one loop iteration, the action trace is the event-handling
actions followed by the broadcast sends; no action of the event-handling
part is a broadcast send and every action of the broadcast part is, so a
broadcast send is never interleaved between two event-handling steps of
the same cycle. -/
theorem broadcast_after_events (st : ServerState) (events : List Event) :
    (loopIter st events).2
      = (processEvents st events).2
        ++ broadcastTrace (processEvents st events).1 ∧
    (∀ x ∈ (processEvents st events).2, x.isSend = false) ∧
    (∀ x ∈ broadcastTrace (processEvents st events).1, x.isSend = true) := by
  refine ⟨rfl, processEvents_no_send st events, ?_⟩
  intro x hx
  simp only [broadcastTrace, List.mem_map] at hx
  obtain ⟨a, _, rfl⟩ := hx
  rfl

/-- C8: a connection reset during a recv is classified end-of-stream
true, exactly like a clean end-of-stream, so the connection is evicted
identically; but, contrary to the claim, the diagnostic that executes is
the generic `OSError` one, not the reset-specific one: Python dispatches
a raised `ConnectionResetError` to the earlier `except OSError` clause
(line 27), since `ConnectionResetError` is a subclass of `OSError`, so
the `except ConnectionResetError` clause (line 30) is unreachable. -/
theorem reset_diagnostic_generic :
    matchHandler PyExc.connectionResetError = some ExcClass.oSErrorC ∧
    read [RecvEvent.exc .connectionResetError]
      = { eof := true, buf := [], diags := [Diag.osMsg],
          closedSock := true } ∧
    read [RecvEvent.bytes []]
      = { eof := true, buf := [], diags := [Diag.eofMsg],
          closedSock := true } ∧
    Diag.osMsg ≠ Diag.resetMsg := by
  decide

/-- C9: handling a readable event on connection `a` never writes to a
different connection `b`: the echo targets exactly the connection the
data was read from. -/
theorem echo_isolation (st : ServerState) (a b : Conn)
    (script : List RecvEvent) (d : Bytes) (hab : a ≠ b) :
    Effect.write b d ∉ (handleEvent st (.readable a script)).2 := by
  simp only [handleEvent]
  split
  · simp
  · simp only [List.mem_singleton]
    intro h
    cases h
    exact hab rfl

theorem echo_isolation_witness :
    (1 : Conn) ≠ 2 ∧
    Effect.write 2 [7]
      ∉ (handleEvent initState (.readable 1 [RecvEvent.bytes [7]])).2 :=
  ⟨by decide, echo_isolation initState 1 2 [RecvEvent.bytes [7]] [7]
    (by decide)⟩

/-- C10: the empty echo write is never performed.  When the read
operation reports no end-of-stream and an empty buffer — here the first
recv immediately would-block — the event loop reaches line 72 with
`data` the empty byte string, but the lookup `s.write` raises `AttributeError`
before any call can be made, so the process dies and no write (empty or
otherwise) occurs on the connection. -/
theorem empty_echo_attribute_error (st : ServerState) (c : Conn) :
    handleEventF st (.readable c [RecvEvent.exc .blockingIOError])
      = StepResult.crash PyError.attributeError [] := rfl

end DummyServer
